import Mathlib

/-!
# Verification of the Silkworm_Monitor ingestion-and-retention pipeline

Shallow embedding of `src/app.py`. Python floats are modelled as rationals
(the claims involve only exact decimal values), instants in time as rational
numbers of seconds, and the SQLite table `SensorData` as a list of rows in
insertion order together with the next autoincrement id.

The block of `receive_data` at `src/app.py` lines 67–83 (timestamp
normalization and construction of the new row) does not parse as Python: it is
dedented out of the enclosing `try` block, making the whole module a
`SyntaxError`, and it refers to names (`temperature`, `humidity`,
`soil_moisture`, `gas_value`, `ldr_value`, `flame_detected`) that are never
bound — the parsed values are bound to `temp`, `hum`, `soil`, `gas`, `ldr` —
and to a `flame_detected` column that the `SensorData` model does not have.
The definitions `normalizeTimestamp` and the persist step inside
`receive_data` below are therefore modelled from the spec and from that
block's own comments ("Add 5 hours and 30 minutes for IST", "Save the
corrected time", `strftime("%Y-%m-%d %H:%M:%S")`); every other definition is a
direct translation of the well-formed source text.
-/

/-- A JSON value as it can appear as a field of the POSTed object.
`other` stands for any value (array, object, ...) on which Python's
`float(...)` raises. -/
inductive JsonVal where
  | num (q : ℚ)
  | str (s : String)
  | bool (b : Bool)
  | null
  | other
deriving DecidableEq, Repr

/-- The decimal digits of a list of characters, most significant first. -/
def digitsToNat (ds : List Char) : Nat :=
  ds.foldl (fun n c => 10 * n + (c.toNat - 48)) 0

/-- Model of Python `float(s)` on a string, restricted to plain decimal
literals: an optional sign, then digits with an optional fractional part
(`"26.5"`, `"-3."`, `".5"`).  Anything else (in particular `"abc"`) fails,
as `float` raises `ValueError` there. -/
def pyFloatOfString (s : String) : Option ℚ :=
  let cs := s.toList
  let signed : ℚ × List Char :=
    match cs with
    | '-' :: rest => (-1, rest)
    | '+' :: rest => (1, rest)
    | _ => (1, cs)
  let intPart := signed.2.takeWhile Char.isDigit
  let rest := signed.2.dropWhile Char.isDigit
  match rest with
  | [] =>
    if intPart.isEmpty then none
    else some (signed.1 * (digitsToNat intPart : ℚ))
  | '.' :: frac =>
    if frac.all Char.isDigit && !(intPart.isEmpty && frac.isEmpty) then
      some (signed.1 *
        ((digitsToNat intPart : ℚ) + (digitsToNat frac : ℚ) / (10 ^ frac.length)))
    else none
  | _ => none

/-- Model of Python `float(v)` on a JSON value: numbers pass through,
strings are parsed, booleans coerce (`float(True) == 1.0`), `None` and
structured values raise (`TypeError`). `none` models the raised exception. -/
def pyFloat : JsonVal → Option ℚ
  | .num q => some q
  | .str s => pyFloatOfString s
  | .bool b => some (if b then 1 else 0)
  | .null => none
  | .other => none

/-- The parsed JSON object body: an association list of fields. The empty
list models the empty object `{}` (which is falsy in Python). -/
abbrev Payload := List (String × JsonVal)

/-- Model of `data.get(k, 0)`: the field's value if present, else the
integer `0` default (src/app.py lines 61–65). -/
def pget (data : Payload) (k : String) : JsonVal :=
  match data.find? (fun kv => kv.1 == k) with
  | some kv => kv.2
  | none => .num 0

/-- The five numeric fields read from the payload (src/app.py lines 61–65). -/
def fieldNames : List String :=
  ["temperature", "humidity", "soil_moisture", "gas_value", "ldr_value"]

/-- One row of the `SensorData` table (src/app.py lines 14–21). -/
structure Reading where
  id : Nat
  temperature : ℚ
  humidity : ℚ
  soil_moisture : ℚ
  gas_value : ℚ
  ldr_value : ℚ
  timestamp : ℚ
deriving DecidableEq, Repr

/-- The field of a reading named by one of the five payload keys. -/
def Reading.fieldOf (r : Reading) : String → ℚ
  | "temperature" => r.temperature
  | "humidity" => r.humidity
  | "soil_moisture" => r.soil_moisture
  | "gas_value" => r.gas_value
  | "ldr_value" => r.ldr_value
  | _ => 0

/-- The persistent store: the `SensorData` rows in insertion order plus the
next value of the autoincrement primary key. -/
structure Store where
  rows : List Reading
  nextId : Nat
deriving DecidableEq, Repr

/-- A fresh database: no rows, autoincrement starts at 1. -/
def Store.empty : Store := ⟨[], 1⟩

/-- Well-formedness maintained by SQLite's autoincrement: ids are strictly
increasing in insertion order and below the next id. -/
def Store.WF (s : Store) : Prop :=
  s.rows.Pairwise (fun a b => a.id < b.id) ∧ ∀ r ∈ s.rows, r.id < s.nextId

instance (s : Store) : Decidable s.WF := by unfold Store.WF; infer_instance

/-- Insert a new row with a fresh id (the committed effect of
`db.session.add(new_entry)`, src/app.py line 84). -/
def insertReading (s : Store) (temp hum soil gas ldr ts : ℚ) : Store :=
  ⟨s.rows ++ [⟨s.nextId, temp, hum, soil, gas, ldr, ts⟩], s.nextId + 1⟩

/-- `SensorData.query.filter(SensorData.timestamp < cutoff).delete()`
(src/app.py line 35): keeps exactly the rows not older than the cutoff and
returns the number of deleted rows (the rowcount `Query.delete` reports). -/
def deleteOlderThan (cutoff : ℚ) (s : Store) : Store × Nat :=
  (⟨s.rows.filter (fun r => !decide (r.timestamp < cutoff)), s.nextId⟩,
   s.rows.countP (fun r => decide (r.timestamp < cutoff)))

/-- `cleanup_data` (src/app.py lines 32–36): cutoff is seven days before the
current instant; rows strictly older are deleted. -/
def cleanup_data (now : ℚ) (s : Store) : Store :=
  (deleteOlderThan (now - 7 * 86400) s).1

/-- `check_health` (src/app.py lines 24–29). -/
def check_health (temp hum gas : ℚ) : Bool :=
  if temp < 24 ∨ temp > 29 then false
  else if hum < 60 ∨ hum > 90 then false
  else if gas > 1500 then false
  else true

/-- `order_by(SensorData.id.desc())` (src/app.py lines 50 and 107). -/
def sortByIdDesc (l : List Reading) : List Reading :=
  l.mergeSort (fun a b => decide (b.id ≤ a.id))

/-- The `/history` query `order_by(id.desc()).limit(n)` (src/app.py line 50). -/
def recentN (n : Nat) (s : Store) : List Reading :=
  (sortByIdDesc s.rows).take n

/-- `SensorData.query.order_by(SensorData.id.desc()).first()`
(src/app.py line 107). -/
def latestReading (s : Store) : Option Reading :=
  (sortByIdDesc s.rows).head?

/-- Modelled from the spec: the timestamp stored for an ingestion happening
at instant `now` (seconds). Source lines 69–82 do not parse (see the file
header); their comments and the spec prescribe adding 5 hours 30 minutes and
truncating to whole seconds via `strftime("%Y-%m-%d %H:%M:%S")`. -/
def normalizeTimestamp (now : ℚ) : ℚ :=
  ((⌊now + (19800 : ℚ)⌋ : ℤ) : ℚ)

/-- The three response shapes of `POST /api/data` (src/app.py lines 57, 96–99,
103): 400 `{status:"error"}`, 200 `{status:"success", buzzer:b}`, and
500 `{status:"error"}`. -/
inductive Resp where
  | badRequest
  | success (buzzer : Bool)
  | serverError
deriving DecidableEq, Repr

/-- Whether a response is the 200 success response. -/
def Resp.isSuccess : Resp → Bool
  | .success _ => true
  | _ => false

/-- `receive_data` (src/app.py lines 53–103). `body` is `none` when the body
is missing or unparseable (`get_json(force=True, silent=True)` returns
`None`); `nowIns` and `nowSweep` are the two `datetime.now()` readings (line
69 and line 33). The `if not data` guard also rejects the empty object, which
is falsy. Parse failure of any of the five fields raises inside the `try` and
yields the 500 response with nothing persisted. On success the new row is
committed and the sweep then removes expired rows; the persist step follows
the spec and the in-source comments since its source text does not parse (see
the file header). -/
def receive_data (body : Option Payload) (nowIns nowSweep : ℚ) (s : Store) :
    Resp × Store :=
  match body with
  | none => (.badRequest, s)
  | some data =>
    if data.isEmpty then (.badRequest, s)
    else
      match pyFloat (pget data "temperature"), pyFloat (pget data "humidity"),
            pyFloat (pget data "soil_moisture"), pyFloat (pget data "gas_value"),
            pyFloat (pget data "ldr_value") with
      | some temp, some hum, some soil, some gas, some ldr =>
        let s1 := insertReading s temp hum soil gas ldr (normalizeTimestamp nowIns)
        let s2 := cleanup_data nowSweep s1
        (.success (!check_health temp hum gas), s2)
      | _, _, _, _, _ => (.serverError, s)

/-- `receive_data` when `cleanup_data` raises (a storage failure in the
delete at line 35 or the commit at line 36): the exception propagates to the
blanket `except` at line 101, the request answers 500, and the pending
`db.session.add` of line 84 — not yet committed, since the first commit in the
request happens inside `cleanup_data` — is discarded with the session. -/
def receive_data_sweepFails (body : Option Payload) (s : Store) : Resp × Store :=
  match body with
  | none => (.badRequest, s)
  | some data =>
    if data.isEmpty then (.badRequest, s)
    else
      match pyFloat (pget data "temperature"), pyFloat (pget data "humidity"),
            pyFloat (pget data "soil_moisture"), pyFloat (pget data "gas_value"),
            pyFloat (pget data "ldr_value") with
      | some _, some _, some _, some _, some _ => (.serverError, s)
      | _, _, _, _, _ => (.serverError, s)

/-! ## Helper lemmas -/

lemma pget_nil (k : String) : pget [] k = .num 0 := rfl

lemma isEmpty_false_of_pyFloat_none {data : Payload} {k : String}
    (hfail : pyFloat (pget data k) = none) : data.isEmpty = false := by
  cases data with
  | nil => rw [pget_nil] at hfail; simp [pyFloat] at hfail
  | cons a as => rfl

/-- Shape of `receive_data` when all five fields parse: the success response
carrying the buzzer command, and the store after insert followed by sweep. -/
lemma receive_data_success_eq {data : Payload} {t h so g l : ℚ}
    (hne : data.isEmpty = false)
    (ht : pyFloat (pget data "temperature") = some t)
    (hh : pyFloat (pget data "humidity") = some h)
    (hs : pyFloat (pget data "soil_moisture") = some so)
    (hg : pyFloat (pget data "gas_value") = some g)
    (hl : pyFloat (pget data "ldr_value") = some l)
    (nowIns nowSweep : ℚ) (s : Store) :
    receive_data (some data) nowIns nowSweep s =
      (.success (!check_health t h g),
       cleanup_data nowSweep
         (insertReading s t h so g l (normalizeTimestamp nowIns))) := by
  simp [receive_data, hne, ht, hh, hs, hg, hl]

/-- Shape of `receive_data` when one of the five fields fails to parse:
the `float(...)` call raises inside the `try`, the handler answers 500, and
the store is untouched. -/
lemma receive_data_failure_eq {data : Payload} {k : String}
    (hk : k ∈ fieldNames) (hfail : pyFloat (pget data k) = none)
    (nowIns nowSweep : ℚ) (s : Store) :
    receive_data (some data) nowIns nowSweep s = (.serverError, s) := by
  have hne : data.isEmpty = false := isEmpty_false_of_pyFloat_none hfail
  have hk5 : k = "temperature" ∨ k = "humidity" ∨ k = "soil_moisture" ∨
      k = "gas_value" ∨ k = "ldr_value" := by simpa [fieldNames] using hk
  rcases hk5 with rfl | rfl | rfl | rfl | rfl <;>
  · cases hT : pyFloat (pget data "temperature") <;>
    cases hH : pyFloat (pget data "humidity") <;>
    cases hS : pyFloat (pget data "soil_moisture") <;>
    cases hG : pyFloat (pget data "gas_value") <;>
    cases hL : pyFloat (pget data "ldr_value") <;>
    simp_all [receive_data]

lemma WF_insertReading {s : Store} (hs : s.WF) (t h so g l ts : ℚ) :
    (insertReading s t h so g l ts).WF := by
  obtain ⟨hp, hb⟩ := hs
  constructor
  · simp only [insertReading, List.pairwise_append]
    refine ⟨hp, List.pairwise_singleton _ _, ?_⟩
    intro a ha b hb'
    rw [List.mem_singleton] at hb'
    subst hb'
    exact hb a ha
  · intro r hr
    simp only [insertReading, List.mem_append, List.mem_singleton] at hr
    rcases hr with hr | rfl
    · exact Nat.lt_succ_of_lt (hb r hr)
    · exact Nat.lt_succ_self _

lemma WF_deleteOlderThan {s : Store} (hs : s.WF) (c : ℚ) :
    ((deleteOlderThan c s).1).WF := by
  obtain ⟨hp, hb⟩ := hs
  exact ⟨hp.sublist (List.filter_sublist _),
    fun r hr => hb r (List.mem_of_mem_filter hr)⟩

lemma mem_deleteOlderThan {c : ℚ} {s : Store} {r : Reading} :
    r ∈ ((deleteOlderThan c s).1).rows ↔ r ∈ s.rows ∧ ¬ r.timestamp < c := by
  simp [deleteOlderThan, List.mem_filter]

/-- The descending sort really is sorted (non-strictly) by id. -/
lemma sortByIdDesc_sorted (l : List Reading) :
    (sortByIdDesc l).Pairwise (fun a b => b.id ≤ a.id) := by
  have h := @List.sorted_mergeSort Reading (fun a b => decide (b.id ≤ a.id))
    (fun a b c hab hbc => by
      simp only [decide_eq_true_eq] at *
      omega)
    (fun a b => by
      simp only [Bool.or_eq_true, decide_eq_true_eq]
      omega)
    l
  unfold sortByIdDesc
  exact h.imp (fun hab => by simpa using hab)

/-- C2: `check_health` is false exactly on the claimed region, and the
concrete evaluations of the spec hold. Soil moisture and light level are not
parameters of `check_health` at all, so they cannot affect the result. -/
theorem c2_check_health_thresholds :
    (∀ t h g : ℚ, check_health t h g = false ↔
      (t < 24 ∨ t > 29 ∨ h < 60 ∨ h > 90 ∨ g > 1500)) ∧
    check_health 26 75 500 = true ∧
    check_health 30 75 500 = false ∧
    check_health 26 50 500 = false ∧
    check_health 26 75 2000 = false ∧
    check_health 24 60 1500 = true ∧
    check_health (2399/100) 60 1500 = false := by
  refine ⟨fun t h g => ?_, by norm_num [check_health], by norm_num [check_health],
    by norm_num [check_health], by norm_num [check_health], by norm_num [check_health],
    by norm_num [check_health]⟩
  unfold check_health
  split
  · simp only [false_iff] at *
    tauto
  · split
    · simp only [false_iff] at *
      tauto
    · split
      · simp only [false_iff] at *
        tauto
      · simp only [Bool.true_eq_false, false_iff]
        tauto

/-- `⌊now + 5h30m⌋` is never older than the sweep cutoff, provided the sweep's
clock reading is within the retention horizon of the insert's (within one
request they are microseconds apart). -/
lemma normalizeTimestamp_not_lt_cutoff {nowIns nowSweep : ℚ}
    (hclk : nowSweep ≤ nowIns + 7 * 86400) :
    ¬ normalizeTimestamp nowIns < nowSweep - 7 * 86400 := by
  unfold normalizeTimestamp
  have h1 : nowIns + (19800 : ℚ) - 1 < ((⌊nowIns + (19800 : ℚ)⌋ : ℤ) : ℚ) :=
    Int.sub_one_lt_floor _
  intro hlt
  linarith

/-- The head of the descending sort is the element of strictly maximal id. -/
lemma head_sortByIdDesc_eq {l : List Reading} {x : Reading}
    (hx : x ∈ l) (hmax : ∀ y ∈ l, y ≠ x → y.id < x.id) :
    (sortByIdDesc l).head? = some x := by
  have hperm : List.Perm (sortByIdDesc l) l := List.mergeSort_perm l _
  have hsorted := sortByIdDesc_sorted l
  cases hm : sortByIdDesc l with
  | nil =>
    have hxm : x ∈ sortByIdDesc l := hperm.mem_iff.mpr hx
    rw [hm] at hxm
    simp at hxm
  | cons hd tl =>
    rw [hm] at hsorted hperm
    have hhd : hd ∈ l := hperm.subset (List.mem_cons_self hd tl)
    have hxm : x ∈ hd :: tl := hperm.mem_iff.mpr hx
    rcases List.mem_cons.mp hxm with rfl | hxt
    · rfl
    · have hle : x.id ≤ hd.id := (List.pairwise_cons.mp hsorted).1 x hxt
      by_cases heq : hd = x
      · simp [heq]
      · exact absurd (hmax hd hhd heq) (by omega)

/-- After inserting a fresh row and sweeping with a cutoff the new timestamp
is not older than, the most recent row is the new row. -/
lemma latestReading_after_insert_sweep {s : Store} (hs : s.WF)
    {t h so g l ts cutoff : ℚ} (hts : ¬ ts < cutoff) :
    latestReading ((deleteOlderThan cutoff (insertReading s t h so g l ts)).1) =
      some ⟨s.nextId, t, h, so, g, l, ts⟩ := by
  apply head_sortByIdDesc_eq
  · rw [mem_deleteOlderThan]
    exact ⟨by simp [insertReading], hts⟩
  · intro y hy hne
    rw [mem_deleteOlderThan] at hy
    have hy' := hy.1
    simp only [insertReading, List.mem_append, List.mem_singleton] at hy'
    rcases hy' with hy' | rfl
    · exact hs.2 y hy'
    · exact absurd rfl hne

/-- C1 (intended behavior; the shipped persist block does not parse, see the
file header): ingesting a payload whose five fields are present and numeric
and then querying the most recent row returns exactly those five values, with
timestamp the server instant plus 5 hours 30 minutes, truncated to whole
seconds. -/
theorem c1_roundtrip_intended {data : Payload} {t h so g l : ℚ}
    (nowIns nowSweep : ℚ) (s : Store) (hs : s.WF)
    (hclk : nowSweep ≤ nowIns + 7 * 86400)
    (hne : data ≠ [])
    (ht : pget data "temperature" = .num t)
    (hh : pget data "humidity" = .num h)
    (hso : pget data "soil_moisture" = .num so)
    (hg : pget data "gas_value" = .num g)
    (hl : pget data "ldr_value" = .num l) :
    latestReading ((receive_data (some data) nowIns nowSweep s).2) =
      some ⟨s.nextId, t, h, so, g, l, ((⌊nowIns + (19800 : ℚ)⌋ : ℤ) : ℚ)⟩ := by
  have hne' : data.isEmpty = false := by
    cases data with
    | nil => exact absurd rfl hne
    | cons a as => rfl
  have ht' : pyFloat (pget data "temperature") = some t := by rw [ht]; rfl
  have hh' : pyFloat (pget data "humidity") = some h := by rw [hh]; rfl
  have hso' : pyFloat (pget data "soil_moisture") = some so := by rw [hso]; rfl
  have hg' : pyFloat (pget data "gas_value") = some g := by rw [hg]; rfl
  have hl' : pyFloat (pget data "ldr_value") = some l := by rw [hl]; rfl
  rw [receive_data_success_eq hne' ht' hh' hso' hg' hl' nowIns nowSweep s]
  unfold cleanup_data
  exact latestReading_after_insert_sweep hs (normalizeTimestamp_not_lt_cutoff hclk)

/-- A payload with all five fields present and numeric. -/
def c1Data : Payload :=
  [("temperature", .num 26), ("humidity", .num 75), ("soil_moisture", .num 40),
   ("gas_value", .num 500), ("ldr_value", .num 300)]

theorem c1_roundtrip_intended_witness :
    latestReading ((receive_data (some c1Data) 1000000 1000001 Store.empty).2) =
      some ⟨1, 26, 75, 40, 500, 300, 1019800⟩ := by
  have h := @c1_roundtrip_intended c1Data 26 75 40 500 300 1000000 1000001
    Store.empty (by decide) (by norm_num) (by decide) (by decide) (by decide)
    (by decide) (by decide) (by decide)
  norm_num at h
  exact h

/-- C3: a payload carrying a field whose value does not coerce to a number
makes the request fail with the 500 error response, and the store — in
particular its row count — is unchanged. -/
theorem c3_nonnumeric_field_rejected {data : Payload} {k : String}
    (nowIns nowSweep : ℚ) (s : Store)
    (hk : k ∈ fieldNames) (hfail : pyFloat (pget data k) = none) :
    receive_data (some data) nowIns nowSweep s = (.serverError, s) ∧
    ((receive_data (some data) nowIns nowSweep s).2).rows.length =
      s.rows.length := by
  refine ⟨receive_data_failure_eq hk hfail nowIns nowSweep s, ?_⟩
  rw [receive_data_failure_eq hk hfail nowIns nowSweep s]

/-- The spec's malformed payload: `temperature: "abc"`. -/
def c3Data : Payload := [("temperature", .str "abc")]

theorem c3_nonnumeric_field_rejected_witness :
    receive_data (some c3Data) 0 0 Store.empty = (.serverError, Store.empty) ∧
    ((receive_data (some c3Data) 0 0 Store.empty).2).rows.length =
      Store.empty.rows.length :=
  @c3_nonnumeric_field_rejected c3Data "temperature" 0 0 Store.empty
    (by decide) (by decide)

/-- C5: when the five fields are present and numeric, the response is the
200 success response and the buzzer command is the negation of the health
classification of the payload's temperature, humidity and gas value. -/
theorem c5_success_response_buzzer {data : Payload} {t h so g l : ℚ}
    (nowIns nowSweep : ℚ) (s : Store)
    (hne : data ≠ [])
    (ht : pget data "temperature" = .num t)
    (hh : pget data "humidity" = .num h)
    (hso : pget data "soil_moisture" = .num so)
    (hg : pget data "gas_value" = .num g)
    (hl : pget data "ldr_value" = .num l) :
    (receive_data (some data) nowIns nowSweep s).1 =
      .success (!check_health t h g) := by
  have hne' : data.isEmpty = false := by
    cases data with
    | nil => exact absurd rfl hne
    | cons a as => rfl
  have ht' : pyFloat (pget data "temperature") = some t := by rw [ht]; rfl
  have hh' : pyFloat (pget data "humidity") = some h := by rw [hh]; rfl
  have hso' : pyFloat (pget data "soil_moisture") = some so := by rw [hso]; rfl
  have hg' : pyFloat (pget data "gas_value") = some g := by rw [hg]; rfl
  have hl' : pyFloat (pget data "ldr_value") = some l := by rw [hl]; rfl
  rw [receive_data_success_eq hne' ht' hh' hso' hg' hl' nowIns nowSweep s]

/-- An unhealthy payload: temperature 30 is above the threshold. -/
def c5Data : Payload :=
  [("temperature", .num 30), ("humidity", .num 75), ("soil_moisture", .num 40),
   ("gas_value", .num 500), ("ldr_value", .num 300)]

theorem c5_success_response_buzzer_witness :
    (receive_data (some c5Data) 0 0 Store.empty).1 = .success true := by
  have h := @c5_success_response_buzzer c5Data 30 75 40 500 300 0 0 Store.empty
    (by decide) (by decide) (by decide) (by decide) (by decide) (by decide)
  norm_num [check_health] at h
  exact h

/-- C10: a field given as a string that parses as a number is accepted and
coerced — `float("26.5")` succeeds — so the request goes through with the
coerced value both classified and persisted; only a value `float` cannot
parse is a hard failure (which is `c3_nonnumeric_field_rejected`). -/
theorem c10_numeric_string_coerced {data : Payload} {v : String}
    {q h so g l : ℚ} (nowIns nowSweep : ℚ) (s : Store)
    (htv : pget data "temperature" = .str v)
    (hq : pyFloatOfString v = some q)
    (hh : pyFloat (pget data "humidity") = some h)
    (hso : pyFloat (pget data "soil_moisture") = some so)
    (hg : pyFloat (pget data "gas_value") = some g)
    (hl : pyFloat (pget data "ldr_value") = some l) :
    receive_data (some data) nowIns nowSweep s =
      (.success (!check_health q h g),
       cleanup_data nowSweep
         (insertReading s q h so g l (normalizeTimestamp nowIns))) := by
  have hne : data.isEmpty = false := by
    cases data with
    | nil => rw [pget_nil] at htv; exact absurd htv (by simp)
    | cons a as => rfl
  have ht' : pyFloat (pget data "temperature") = some q := by rw [htv]; exact hq
  exact receive_data_success_eq hne ht' hh hso hg hl nowIns nowSweep s

/-- A payload whose temperature arrives as the string "26.5". -/
def c10Data : Payload :=
  [("temperature", .str "26.5"), ("humidity", .num 75),
   ("soil_moisture", .num 40), ("gas_value", .num 500), ("ldr_value", .num 300)]

theorem c10_numeric_string_coerced_witness :
    receive_data (some c10Data) 0 0 Store.empty =
      (.success false,
       cleanup_data 0
         (insertReading Store.empty (53/2) 75 40 500 300
           (normalizeTimestamp 0))) := by
  have hq : pyFloatOfString "26.5" = some (53/2) := by
    rw [show pyFloatOfString "26.5" =
      some ((1 : ℚ) * (((26 : ℕ) : ℚ) + ((5 : ℕ) : ℚ) / (10 : ℚ) ^ 1)) from rfl]
    norm_num
  have hx := @c10_numeric_string_coerced c10Data "26.5" (53/2) 75 40 500 300
    0 0 Store.empty (by decide) hq (by decide) (by decide) (by decide)
    (by decide)
  norm_num [check_health] at hx
  exact hx

/-- C4 counterexample: the empty object `{}` is falsy in Python, so the
`if not data` guard answers the 400 error response instead of succeeding with
five zeros; nothing is persisted. -/
theorem c4_counterexample_empty_object :
    receive_data (some ([] : Payload)) 0 0 Store.empty =
      (.badRequest, Store.empty) ∧
    ((receive_data (some ([] : Payload)) 0 0 Store.empty).1).isSuccess = false :=
  ⟨rfl, rfl⟩

/-- C4 as amended: for a NON-EMPTY object whose present fields all coerce,
the request succeeds and every absent field of the persisted reading is 0
(the `data.get(k, 0)` default); the empty object is instead rejected with the
400 response by `c4_counterexample_empty_object`. -/
theorem c4_absent_fields_default_zero {data : Payload}
    (nowIns nowSweep : ℚ) (s : Store) (hs : s.WF)
    (hclk : nowSweep ≤ nowIns + 7 * 86400)
    (hne : data ≠ [])
    (hok : ∀ k ∈ fieldNames, (pyFloat (pget data k)).isSome = true) :
    ((receive_data (some data) nowIns nowSweep s).1).isSuccess = true ∧
    ∀ r : Reading,
      latestReading ((receive_data (some data) nowIns nowSweep s).2) = some r →
      ∀ k ∈ fieldNames, data.find? (fun kv => kv.1 == k) = none →
        r.fieldOf k = 0 := by
  obtain ⟨t, ht⟩ := Option.isSome_iff_exists.mp (hok "temperature" (by simp [fieldNames]))
  obtain ⟨h, hh⟩ := Option.isSome_iff_exists.mp (hok "humidity" (by simp [fieldNames]))
  obtain ⟨so, hso⟩ := Option.isSome_iff_exists.mp (hok "soil_moisture" (by simp [fieldNames]))
  obtain ⟨g, hg⟩ := Option.isSome_iff_exists.mp (hok "gas_value" (by simp [fieldNames]))
  obtain ⟨l, hl⟩ := Option.isSome_iff_exists.mp (hok "ldr_value" (by simp [fieldNames]))
  have hne' : data.isEmpty = false := by
    cases data with
    | nil => exact absurd rfl hne
    | cons a as => rfl
  have hrw := receive_data_success_eq hne' ht hh hso hg hl nowIns nowSweep s
  constructor
  · rw [hrw]
    rfl
  · intro r hr k hk habs
    rw [hrw] at hr
    unfold cleanup_data at hr
    rw [latestReading_after_insert_sweep hs (normalizeTimestamp_not_lt_cutoff hclk)] at hr
    have hr' : (⟨s.nextId, t, h, so, g, l, normalizeTimestamp nowIns⟩ : Reading) = r :=
      Option.some.inj hr
    subst hr'
    have hpg : pget data k = .num 0 := by unfold pget; rw [habs]
    have hk5 : k = "temperature" ∨ k = "humidity" ∨ k = "soil_moisture" ∨
        k = "gas_value" ∨ k = "ldr_value" := by simpa [fieldNames] using hk
    rcases hk5 with rfl | rfl | rfl | rfl | rfl
    · rw [hpg] at ht
      have ht0 : t = 0 := by simpa [pyFloat] using ht.symm
      simpa [Reading.fieldOf] using ht0
    · rw [hpg] at hh
      have hh0 : h = 0 := by simpa [pyFloat] using hh.symm
      simpa [Reading.fieldOf] using hh0
    · rw [hpg] at hso
      have hso0 : so = 0 := by simpa [pyFloat] using hso.symm
      simpa [Reading.fieldOf] using hso0
    · rw [hpg] at hg
      have hg0 : g = 0 := by simpa [pyFloat] using hg.symm
      simpa [Reading.fieldOf] using hg0
    · rw [hpg] at hl
      have hl0 : l = 0 := by simpa [pyFloat] using hl.symm
      simpa [Reading.fieldOf] using hl0

/-- A non-empty payload with none of the five numeric fields. -/
def c4Data : Payload := [("device", .str "esp32")]

theorem c4_absent_fields_default_zero_witness :
    ((receive_data (some c4Data) 0 0 Store.empty).1).isSuccess = true ∧
    (⟨1, 0, 0, 0, 0, 0, 19800⟩ : Reading).fieldOf "temperature" = 0 := by
  have hx := @c4_absent_fields_default_zero c4Data 0 0 Store.empty (by decide)
    (by norm_num) (by decide) (by decide)
  have h0 : pyFloat (pget c4Data "temperature") = some 0 := by decide
  have h1 : pyFloat (pget c4Data "humidity") = some 0 := by decide
  have h2 : pyFloat (pget c4Data "soil_moisture") = some 0 := by decide
  have h3 : pyFloat (pget c4Data "gas_value") = some 0 := by decide
  have h4 : pyFloat (pget c4Data "ldr_value") = some 0 := by decide
  have hnorm : normalizeTimestamp 0 = 19800 := by
    unfold normalizeTimestamp
    norm_num
  have hlat : latestReading ((receive_data (some c4Data) 0 0 Store.empty).2) =
      some ⟨1, 0, 0, 0, 0, 0, 19800⟩ := by
    rw [receive_data_success_eq (by decide) h0 h1 h2 h3 h4 0 0 Store.empty]
    unfold cleanup_data
    rw [hnorm]
    exact latestReading_after_insert_sweep (by decide)
      (show ¬ (19800 : ℚ) < 0 - 7 * 86400 by norm_num)
  exact ⟨hx.1, hx.2 ⟨1, 0, 0, 0, 0, 0, 19800⟩ hlat "temperature" (by decide) (by decide)⟩

/-- C6: on a well-formed store, the history query returns at most 100 rows,
strictly descending by id. -/
theorem c6_recentN_bounded_and_descending (s : Store) (hs : s.WF) :
    (recentN 100 s).length ≤ 100 ∧
    (recentN 100 s).Pairwise (fun a b => b.id < a.id) := by
  constructor
  · unfold recentN
    rw [List.length_take]
    omega
  · have hsorted := sortByIdDesc_sorted s.rows
    have hperm : List.Perm (sortByIdDesc s.rows) s.rows := List.mergeSort_perm _ _
    have h1 : (s.rows.map Reading.id).Nodup :=
      List.pairwise_map.mpr (hs.1.imp fun hab => Nat.ne_of_lt hab)
    have hnd : ((sortByIdDesc s.rows).map Reading.id).Nodup :=
      ((hperm.map Reading.id).nodup_iff).mpr h1
    have hne : (sortByIdDesc s.rows).Pairwise (fun a b => a.id ≠ b.id) :=
      List.pairwise_map.mp hnd
    have hstrict : (sortByIdDesc s.rows).Pairwise (fun a b => b.id < a.id) :=
      (hsorted.and hne).imp (fun hab => by omega)
    unfold recentN
    exact hstrict.sublist (List.take_sublist _ _)

/-- A two-row store for instantiating the history bound. -/
def c6Store : Store :=
  ⟨[⟨1, 26, 75, 40, 500, 300, 100⟩, ⟨2, 27, 76, 41, 501, 301, 200⟩], 3⟩

theorem c6_recentN_bounded_and_descending_witness :
    (recentN 100 c6Store).length ≤ 100 ∧
    (recentN 100 c6Store).Pairwise (fun a b => b.id < a.id) :=
  c6_recentN_bounded_and_descending c6Store (by decide)

/-- C7: the sweep run by an ingestion deletes exactly the rows strictly older
than seven days before the sweep's clock reading; the freshly inserted row
survives, and would equally survive if the sweep ran before the insert; and a
row eight days old is absent from a subsequent `recentN 100`. -/
theorem c7_sweep_exact_and_new_survives {data : Payload} {t h so g l : ℚ}
    (nowIns nowSweep : ℚ) (s : Store) (old : Reading)
    (hclk : nowSweep ≤ nowIns + 7 * 86400)
    (ht : pyFloat (pget data "temperature") = some t)
    (hh : pyFloat (pget data "humidity") = some h)
    (hso : pyFloat (pget data "soil_moisture") = some so)
    (hg : pyFloat (pget data "gas_value") = some g)
    (hl : pyFloat (pget data "ldr_value") = some l)
    (hne : data ≠ [])
    (hold : old.timestamp < nowSweep - 7 * 86400) :
    (∀ r : Reading,
        r ∈ ((receive_data (some data) nowIns nowSweep s).2).rows ↔
        (r ∈ (insertReading s t h so g l (normalizeTimestamp nowIns)).rows ∧
         ¬ r.timestamp < nowSweep - 7 * 86400)) ∧
    (⟨s.nextId, t, h, so, g, l, normalizeTimestamp nowIns⟩ : Reading) ∈
      ((receive_data (some data) nowIns nowSweep s).2).rows ∧
    (⟨(cleanup_data nowSweep s).nextId, t, h, so, g, l,
        normalizeTimestamp nowIns⟩ : Reading) ∈
      (insertReading (cleanup_data nowSweep s) t h so g l
        (normalizeTimestamp nowIns)).rows ∧
    old ∉ recentN 100 ((receive_data (some data) nowIns nowSweep s).2) := by
  have hne' : data.isEmpty = false := by
    cases data with
    | nil => exact absurd rfl hne
    | cons a as => rfl
  have hrw := receive_data_success_eq hne' ht hh hso hg hl nowIns nowSweep s
  rw [hrw]
  refine ⟨?_, ?_, ?_, ?_⟩
  · intro r
    unfold cleanup_data
    exact mem_deleteOlderThan
  · unfold cleanup_data
    rw [mem_deleteOlderThan]
    exact ⟨by simp [insertReading], normalizeTimestamp_not_lt_cutoff hclk⟩
  · simp [insertReading]
  · intro hmem
    unfold recentN at hmem
    have h1 := List.mem_of_mem_take hmem
    have h2 : old ∈ (cleanup_data nowSweep
        (insertReading s t h so g l (normalizeTimestamp nowIns))).rows := by
      unfold sortByIdDesc at h1
      exact List.mem_mergeSort.mp h1
    unfold cleanup_data at h2
    rw [mem_deleteOlderThan] at h2
    exact h2.2 hold

/-- The spec's fixture: a row eight days old at sweep time 800000. -/
def c7Old : Reading := ⟨1, 0, 0, 0, 0, 0, 108800⟩

/-- A store already holding the eight-day-old row. -/
def c7Store : Store := ⟨[c7Old], 2⟩

theorem c7_sweep_exact_and_new_survives_witness :
    (⟨2, 26, 75, 40, 500, 300, normalizeTimestamp 800000⟩ : Reading) ∈
      ((receive_data (some c1Data) 800000 800000 c7Store).2).rows ∧
    c7Old ∉ recentN 100 ((receive_data (some c1Data) 800000 800000 c7Store).2) := by
  have hx := @c7_sweep_exact_and_new_survives c1Data 26 75 40 500 300
    800000 800000 c7Store c7Old (by norm_num) (by decide) (by decide)
    (by decide) (by decide) (by decide) (by decide)
    (by norm_num [c7Old])
  exact ⟨hx.2.1, hx.2.2.2⟩

/-- C8: the retention delete is idempotent — running it again with the same
cutoff deletes zero rows and leaves the store fixed — and when strictly older
rows exist, the first run's count is nonzero. -/
theorem c8_deleteOlderThan_idempotent (cutoff : ℚ) (s : Store) :
    (deleteOlderThan cutoff ((deleteOlderThan cutoff s).1)).2 = 0 ∧
    (deleteOlderThan cutoff ((deleteOlderThan cutoff s).1)).1 =
      (deleteOlderThan cutoff s).1 ∧
    ((∃ r ∈ s.rows, r.timestamp < cutoff) →
      (deleteOlderThan cutoff s).2 ≠ 0) := by
  refine ⟨?_, ?_, ?_⟩
  · simp only [deleteOlderThan]
    rw [List.countP_eq_zero]
    intro a ha
    have h2 := (List.mem_filter.mp ha).2
    simpa using h2
  · simp only [deleteOlderThan, List.filter_filter]
    congr 1
    apply List.filter_congr
    intro a _
    simp
  · rintro ⟨r, hr, hlt⟩
    simp only [deleteOlderThan]
    have hpos : 0 < s.rows.countP (fun r => decide (r.timestamp < cutoff)) :=
      List.countP_pos_iff.mpr ⟨r, hr, by simpa using hlt⟩
    omega

/-- A store with one row older than cutoff 10. -/
def c8Store : Store := ⟨[⟨1, 0, 0, 0, 0, 0, 5⟩], 2⟩

theorem c8_deleteOlderThan_idempotent_witness :
    (deleteOlderThan 10 ((deleteOlderThan 10 c8Store).1)).2 = 0 ∧
    (deleteOlderThan 10 c8Store).2 ≠ 0 := by
  have hx := c8_deleteOlderThan_idempotent 10 c8Store
  exact ⟨hx.1, hx.2.2 ⟨⟨1, 0, 0, 0, 0, 0, 5⟩, by decide, by norm_num⟩⟩

/-- C9 counterexample: a valid reading whose sweep step fails. The blanket
`except` turns the failure into the 500 error response — not the success
response the claim requires — and the store still has no new row (the first
commit of the request lives inside `cleanup_data`, so the pending insert is
discarded with the session). -/
theorem c9_counterexample_sweep_failure :
    ((receive_data_sweepFails (some c1Data) Store.empty).1).isSuccess = false ∧
    (receive_data_sweepFails (some c1Data) Store.empty).2 = Store.empty := by
  refine ⟨by decide, by decide⟩

/-- C9 as amended: when the sweep raises, the request answers the generic 500
error response and the store is left unchanged — the new record is NOT
durable, because `cleanup_data` performs the first commit of the request. -/
theorem c9_sweep_failure_error_response {data : Payload} {t h so g l : ℚ}
    (s : Store) (hne : data ≠ [])
    (ht : pyFloat (pget data "temperature") = some t)
    (hh : pyFloat (pget data "humidity") = some h)
    (hso : pyFloat (pget data "soil_moisture") = some so)
    (hg : pyFloat (pget data "gas_value") = some g)
    (hl : pyFloat (pget data "ldr_value") = some l) :
    receive_data_sweepFails (some data) s = (.serverError, s) := by
  have hne' : data.isEmpty = false := by
    cases data with
    | nil => exact absurd rfl hne
    | cons a as => rfl
  simp [receive_data_sweepFails, hne', ht, hh, hso, hg, hl]

theorem c9_sweep_failure_error_response_witness :
    receive_data_sweepFails (some c1Data) Store.empty =
      (.serverError, Store.empty) :=
  @c9_sweep_failure_error_response c1Data 26 75 40 500 300 Store.empty
    (by decide) (by decide) (by decide) (by decide) (by decide) (by decide)
